import Mathlib

/-!
Shallow embedding of the eureka-js-client module (src/EurekaClient.js).

The client keeps a local cache of the registry as two JS objects
(cache.app and cache.vip).  We model JS objects used as string-keyed maps
by association lists with replace-on-assign semantics, JS "undefined"
property reads by Option, coercion of undefined to the string "undefined"
when used as a property key, and thrown JS exceptions by an explicit error
component.  Network callbacks (error, response, body) are modelled by
passing the response as an explicit argument and returning the value the
callback would receive.
-/

namespace EurekaClient

/-- A peer instance record as found in the registry payload.  Only the
fields relevant to the cache pipeline are kept; vipAddress may be absent
(JS undefined). -/
structure Inst where
  vipAddress : Option String
  instanceId : Option String
  deriving DecidableEq, Repr

/-- An element of a cached sequence.  The truthy branch of transformApp
stores instance records; the falsy branch wraps app.instance in a
one-element array, and when app.instance was an empty array the stored
element is that empty array itself. -/
inductive CacheElem where
  | record (i : Inst)
  | emptyList
  deriving DecidableEq, Repr

/-- The instance field of an application entry in the registry payload:
either a single record or an array of records. -/
inductive InstField where
  | single (i : Inst)
  | list (l : List Inst)
  deriving DecidableEq, Repr

/-- An application entry of the registry payload.  The JS field is called
instance, which is a reserved word in Lean, hence instanceField. -/
structure AppJson where
  name : String
  instanceField : InstField
  deriving DecidableEq, Repr

/-- JS property assignment obj[k] = v on a string-keyed object, modelled
on an association list: replaces the value at an existing key, otherwise
appends the new binding. -/
def setKey {α : Type} : List (String × α) → String → α → List (String × α)
  | [], k, v => [(k, v)]
  | (k₁, v₁) :: rest, k, v =>
      if k₁ = k then (k, v) :: rest else (k₁, v₁) :: setKey rest k v

/-- JS property read obj[k]: the bound value, or none for undefined. -/
def getKey {α : Type} : List (String × α) → String → Option α
  | [], _ => none
  | (k₁, v₁) :: rest, k => if k₁ = k then some v₁ else getKey rest k

deriving instance DecidableEq for Except

/-- The client cache: this.cache = \x7b app: \x7b\x7d, vip: \x7b\x7d \x7d. -/
structure Cache where
  app : List (String × List CacheElem)
  vip : List (String × List CacheElem)
  deriving DecidableEq, Repr

/-- The empty cache the constructor installs and transformRegistry starts
each rebuild from. -/
def Cache.empty : Cache := { app := [], vip := [] }

/-- JS coerces undefined to the string "undefined" when it is used as a
property key, as in cache.vip[app.instance.vipAddress] with an absent
vipAddress. -/
def jsKey : Option String → String
  | some s => s
  | none => "undefined"

/-- The toUpperCase() calls of the source, modelled as the character-wise
uppercase map (the theorem toUpperCase_eq_toUpper below shows this is the
library String.toUpper). -/
def toUpperCase (s : String) : String := ⟨s.data.map Char.toUpper⟩

/-- transformApp(app, cache).  The JS guard is app.instance.length: for an
array this is the length (truthy iff nonzero), for a single record the
length property is undefined, hence falsy.  The truthy branch stores the
array under the upper-cased name and under the vipAddress of its first
element; the falsy branch wraps app.instance in a one-element array. -/
def transformApp (app : AppJson) (cache : Cache) : Cache :=
  match app.instanceField with
  | .list (i :: rest) =>
      let seq := (i :: rest).map CacheElem.record
      { app := setKey cache.app (toUpperCase app.name) seq,
        vip := setKey cache.vip (jsKey i.vipAddress) seq }
  | .single i =>
      let instances := [CacheElem.record i]
      { app := setKey cache.app (toUpperCase app.name) instances,
        vip := setKey cache.vip (jsKey i.vipAddress) instances }
  | .list [] =>
      let instances := [CacheElem.emptyList]
      { app := setKey cache.app (toUpperCase app.name) instances,
        vip := setKey cache.vip (jsKey none) instances }

/-- The applications.application field of a registry payload: absent
(falsy), a single application object, or an array of application
objects. -/
inductive ApplicationField where
  | absent
  | single (a : AppJson)
  | list (l : List AppJson)
  deriving DecidableEq, Repr

/-- The parsed registry value JSON.parse(body) can yield: a falsy value
such as null, a truthy value whose applications field is undefined
(reading .application of it throws a TypeError), or a registry carrying
an applications.application field. -/
inductive RegistryVal where
  | nullVal
  | noApplicationsObj
  | withApps (af : ApplicationField)
  deriving DecidableEq, Repr

/-- Folding transformApp over the application entries starting from a
fresh empty cache: the newCache built inside transformRegistry. -/
def applyApps : ApplicationField → Cache → Cache
  | .absent, c => c
  | .single a, c => transformApp a c
  | .list l, c => l.foldl (fun c a => transformApp a c) c

/-- transformRegistry(registry): returns the new value of this.cache
together with the message of a thrown TypeError, if any.  A falsy
registry only logs a warning; an absent application field returns early;
otherwise a fresh newCache is built and assigned to this.cache in one
assignment. -/
def transformRegistry (v : RegistryVal) (cache : Cache) : Cache × Option String :=
  match v with
  | .nullVal => (cache, none)
  | .noApplicationsObj =>
      (cache, some "TypeError: Cannot read property application of undefined")
  | .withApps .absent => (cache, none)
  | .withApps (.single a) => (applyApps (.single a) Cache.empty, none)
  | .withApps (.list l) => (applyApps (.list l) Cache.empty, none)

/-- The payload of a 200 response as seen by JSON.parse: either the parse
throws a SyntaxError (malformed body), or it yields a registry value. -/
inductive ParsedBody where
  | malformed
  | parsed (v : RegistryVal)
  deriving DecidableEq, Repr

/-- The (error, response, body) triple the request library hands to the
fetchRegistry callback: a transport error (response undefined), or a
response with a status code and a body. -/
inductive RegistryResp where
  | err (e : String)
  | ok (status : Nat) (body : ParsedBody)
  deriving DecidableEq, Repr

/-- What the caller of fetchRegistry observes: callback(null),
callback(error) for a transport error, callback(new Error(..)) for a
non-200 status, or an exception thrown out of the callback (the callback
is then never invoked). -/
inductive FetchOutcome where
  | cbNull
  | cbTransportError (e : String)
  | cbStatusError
  | thrown (m : String)
  deriving DecidableEq, Repr

/-- fetchRegistry(callback): on a 200 response the body is parsed and
transformRegistry runs before callback(null); a transport error is passed
to the callback; any other status yields callback(new Error(..)).  The
result is the new value of this.cache paired with what the caller
observes. -/
def fetchRegistry (resp : RegistryResp) (cache : Cache) : Cache × FetchOutcome :=
  match resp with
  | .err e => (cache, .cbTransportError e)
  | .ok status body =>
      if status = 200 then
        match body with
        | .malformed => (cache, .thrown "SyntaxError: Unexpected token in JSON")
        | .parsed v =>
            match transformRegistry v cache with
            | (c₂, none) => (c₂, .cbNull)
            | (c₂, some m) => (c₂, .thrown m)
      else (cache, .cbStatusError)

/-- getInstancesByAppId(appId): an empty (falsy) appId throws a
RangeError; otherwise the cache is read at the upper-cased key, yielding
the bound sequence or undefined (with a warning logged). -/
def getInstancesByAppId (cache : Cache) (appId : String) :
    Except String (Option (List CacheElem)) :=
  if appId = "" then
    .error "RangeError: Unable to query instances with no appId"
  else
    .ok (getKey cache.app (toUpperCase appId))

/-- getInstancesByVipAddress(vipAddress): an empty (falsy) vipAddress
throws a RangeError; otherwise the cache is read at the exact key,
yielding the bound sequence or undefined (with a warning logged). -/
def getInstancesByVipAddress (cache : Cache) (vipAddress : String) :
    Except String (Option (List CacheElem)) :=
  if vipAddress = "" then
    .error "RangeError: Unable to query instances with no vipAddress"
  else
    .ok (getKey cache.vip vipAddress)

/-- The (error, response, body) triple for the registration and heartbeat
calls, whose bodies are plain strings.  When the request library reports a
transport error the response is undefined. -/
inductive HttpResp where
  | err (e : String)
  | ok (status : Nat) (body : String)
  deriving DecidableEq, Repr

/-- The observable effect of one run of the renew() callback: how many
times register() was invoked, whether an error escaped the callback, and
how many immediate renew retries were issued (the code never retries
inside the callback; failures wait for the next heartbeat tick). -/
structure RenewEffect where
  registerCalls : Nat
  threw : Bool
  immediateRenewRetries : Nat
  deriving DecidableEq, Repr

/-- renew(): a 200 response logs success; a 404 response logs a warning
and calls this.register() once; every other outcome (transport error or
unexpected status) is only logged. -/
def renew (resp : HttpResp) : RenewEffect :=
  match resp with
  | .err _ => { registerCalls := 0, threw := false, immediateRenewRetries := 0 }
  | .ok status _ =>
      if status = 200 then
        { registerCalls := 0, threw := false, immediateRenewRetries := 0 }
      else if status = 404 then
        { registerCalls := 1, threw := false, immediateRenewRetries := 0 }
      else
        { registerCalls := 0, threw := false, immediateRenewRetries := 0 }

/-- What the caller of register() observes through its callback:
callback(null) on success, callback(error) on a transport error, or
callback(new Error(message)) carrying the failure message built from the
status code and body. -/
inductive RegisterResult where
  | okNull
  | cbTransportError (e : String)
  | cbStatusError (message : String)
  deriving DecidableEq, Repr

/-- The message of the Error built by register() for an unexpected
status: it interpolates the status code and the response body. -/
def registrationFailureMessage (status : Nat) (body : String) : String :=
  "eureka registration FAILED: status: " ++ toString status ++ " body: " ++ body

/-- register(callback): status 204 with no transport error is the only
success; a transport error is passed to the callback; any other status
yields callback(new Error(..)) with the status and body in the message. -/
def register (resp : HttpResp) : RegisterResult :=
  match resp with
  | .ok status body =>
      if status = 204 then .okNull
      else .cbStatusError (registrationFailureMessage status body)
  | .err e => .cbTransportError e

/-- The DNS environment: the answer dns.resolveTxt would produce for a
given query name — an error or a list of TXT records, each a list of
character-string chunks. -/
def DnsEnv : Type := String → Except String (List (List String))

/-- locateEurekaHostUsingDns(callback), with the two network lookups made
explicit through the DNS environment and the random index through pick.
A missing ec2Region throws; an error from either TXT query throws; on
success the callback receives the first element of the flattened second
answer (undefined when it is empty, hence the Option).  Reading the first
record of an empty first answer throws a TypeError in JS; an
out-of-range pick yields the string coercion of undefined in the second
query name. -/
def locateEurekaHostUsingDns (ec2Region : Option String) (host : String)
    (dnsEnv : DnsEnv) (pick : Nat) : Except String (Option String) :=
  match ec2Region with
  | none =>
      .error ("EC2 region was undefined. " ++
        "config.eureka.ec2Region must be set to resolve Eureka using DNS records.")
  | some region =>
      match dnsEnv ("txt." ++ region ++ "." ++ host) with
      | .error e =>
          .error ("Error resolving eureka server list for region [" ++ region ++
            "] using DNS: [" ++ e ++ "]")
      | .ok [] => .error "TypeError: Cannot read property length of undefined"
      | .ok (firstRecord :: _) =>
          match dnsEnv ("txt." ++ firstRecord.getD pick "undefined") with
          | .error e₂ =>
              .error ("Error locating eureka server using DNS: [" ++ e₂ ++ "]")
          | .ok results => .ok (results.flatten.head?)

/-- lookupCurrentEurekaHost(callback): when the datacenter is Amazon and
useDns is configured, the host comes from the DNS resolution; otherwise
the statically configured host is returned directly. -/
def lookupCurrentEurekaHost (amazonDataCenter useDns : Bool) (host : String)
    (ec2Region : Option String) (dnsEnv : DnsEnv) (pick : Nat) :
    Except String (Option String) :=
  if amazonDataCenter && useDns then
    locateEurekaHostUsingDns ec2Region host dnsEnv pick
  else
    .ok (some host)

/-- buildEurekaUrl(callback), applied to the outcome of the host lookup:
the scheme from the ssl flag, the resolved host (undefined is coerced to
the string "undefined" in the template literal), the port and the service
path.  If the lookup threw, no URL is produced. -/
def buildEurekaUrl (ssl : Bool) (port : Nat) (servicePath : String)
    (hostResult : Except String (Option String)) : Except String String :=
  match hostResult with
  | .error e => .error e
  | .ok h =>
      .ok ((if ssl then "https" else "http") ++ "://" ++ jsKey h ++ ":" ++
        toString port ++ servicePath)

/-! Helper lemmas about the JS-object model. -/

theorem getKey_setKey_self {α : Type} (m : List (String × α)) (k : String) (v : α) :
    getKey (setKey m k v) k = some v := by
  induction m with
  | nil => simp [setKey, getKey]
  | cons p rest ih =>
      obtain ⟨k₁, v₁⟩ := p
      by_cases h : k₁ = k <;> simp [setKey, getKey, h, ih]

theorem getKey_setKey_ne {α : Type} (m : List (String × α)) {k k₂ : String} (v : α)
    (h : k₂ ≠ k) : getKey (setKey m k v) k₂ = getKey m k₂ := by
  induction m with
  | nil => simp [setKey, getKey, Ne.symm h]
  | cons p rest ih =>
      obtain ⟨k₁, v₁⟩ := p
      by_cases h₁ : k₁ = k
      · subst h₁
        simp [setKey, getKey, Ne.symm h]
      · simp [setKey, getKey, h₁, ih]

/-! Sample data shared by several witnesses: a registry payload holding one
application named MYAPP with two instances, and the cache one successful
fetch of it produces. -/

def sampleInst₁ : Inst := { vipAddress := some "orders.vip", instanceId := some "i-1" }

def sampleInst₂ : Inst := { vipAddress := some "orders.vip", instanceId := some "i-2" }

def sampleRegistry : RegistryVal :=
  .withApps (.single { name := "MYAPP", instanceField := .list [sampleInst₁, sampleInst₂] })

def sampleCache : Cache := (fetchRegistry (.ok 200 (.parsed sampleRegistry)) Cache.empty).1

/-! Claim theorems. -/

/-- Claim C8: transforming an application entry whose instance field is a
single record and one whose instance field is the one-element list of that
record produce the same cache, under both the application-name key and the
virtual-IP key. -/
theorem transformApp_single_eq_singleton_list (n : String) (i : Inst) (c : Cache) :
    transformApp { name := n, instanceField := .single i } c =
      transformApp { name := n, instanceField := .list [i] } c := rfl

/-- Claim C10: an application entry whose instance field is the empty list
takes the single-record branch of transformApp: the value cached under the
upper-cased name is the one-element sequence holding the empty list itself,
stored in the virtual-IP index under the key obtained from the absent
(undefined) vipAddress of the empty list. -/
theorem transformApp_empty_list (n : String) (c : Cache) :
    getKey (transformApp { name := n, instanceField := .list [] } c).app (toUpperCase n) =
      some [CacheElem.emptyList] ∧
    getKey (transformApp { name := n, instanceField := .list [] } c).vip (jsKey none) =
      some [CacheElem.emptyList] :=
  ⟨getKey_setKey_self .., getKey_setKey_self ..⟩

/-- Claim C9: for an application entry with a non-empty instance list, the
whole normalized sequence is stored in the virtual-IP index under the
virtual-IP address of the first instance, and no other virtual-IP key is
touched by this entry — in particular the differing virtual-IP addresses of
the later instances get no key of their own. -/
theorem transformApp_vip_key_is_first (n : String) (i : Inst) (rest : List Inst)
    (c : Cache) :
    getKey (transformApp { name := n, instanceField := .list (i :: rest) } c).vip
      (jsKey i.vipAddress) = some ((i :: rest).map CacheElem.record) ∧
    (∀ k, k ≠ jsKey i.vipAddress →
      getKey (transformApp { name := n, instanceField := .list (i :: rest) } c).vip k =
        getKey c.vip k) :=
  ⟨getKey_setKey_self .., fun _ hk => getKey_setKey_ne _ _ hk⟩

/-- Witness for C9: with two instances declaring the vips v1 and v2, the
sequence is keyed under v1 and v2 remains unbound. -/
theorem transformApp_vip_key_is_first_witness :
    ("v2" ≠ jsKey (some "v1")) ∧
    getKey (transformApp
        { name := "A",
          instanceField := .list [{ vipAddress := some "v1", instanceId := some "i-1" },
            { vipAddress := some "v2", instanceId := some "i-2" }] }
        Cache.empty).vip "v2" = getKey Cache.empty.vip "v2" :=
  ⟨by decide,
    (transformApp_vip_key_is_first "A" { vipAddress := some "v1", instanceId := some "i-1" }
      [{ vipAddress := some "v2", instanceId := some "i-2" }] Cache.empty).2 "v2" (by decide)⟩

/-- The application field a fetch response carries, when its payload parsed
to a registry with one. -/
def payloadApps : RegistryResp → Option ApplicationField
  | .ok _ (.parsed (.withApps af)) => some af
  | _ => none

/-- Claim C1: every run of fetchRegistry either leaves both indices of the
cache exactly as they were, or replaces both at once by the pair freshly
built from this runs payload alone — a reader between runs never sees one
index from the new fetch next to one from an older fetch. -/
theorem fetchRegistry_atomic_swap (resp : RegistryResp) (c : Cache) :
    ((fetchRegistry resp c).1.app = c.app ∧ (fetchRegistry resp c).1.vip = c.vip) ∨
    (∃ af, payloadApps resp = some af ∧
      (fetchRegistry resp c).1.app = (applyApps af Cache.empty).app ∧
      (fetchRegistry resp c).1.vip = (applyApps af Cache.empty).vip) := by
  cases resp with
  | err e => exact .inl ⟨rfl, rfl⟩
  | ok s b =>
      by_cases hs : s = 200
      · subst hs
        cases b with
        | malformed => exact .inl ⟨rfl, rfl⟩
        | parsed v =>
            cases v with
            | nullVal => exact .inl ⟨rfl, rfl⟩
            | noApplicationsObj => exact .inl ⟨rfl, rfl⟩
            | withApps af =>
                cases af with
                | absent => exact .inl ⟨rfl, rfl⟩
                | single a => exact .inr ⟨.single a, rfl, rfl, rfl⟩
                | list l => exact .inr ⟨.list l, rfl, rfl, rfl⟩
      · refine .inl ?_
        simp [fetchRegistry, hs]

/-- Whether a heartbeat response is the not-found status 404. -/
def isNotFoundResp : HttpResp → Bool
  | .err _ => false
  | .ok s _ => s == 404

/-- Claim C3: the renew callback never lets an error escape, never retries
the heartbeat immediately, and invokes register() exactly once on a 404
response and zero times on every other response (success, transport error
or unexpected status). -/
theorem renew_spec (resp : HttpResp) :
    (renew resp).threw = false ∧
    (renew resp).immediateRenewRetries = 0 ∧
    (renew resp).registerCalls = (if isNotFoundResp resp then 1 else 0) := by
  cases resp with
  | err e => exact ⟨rfl, rfl, rfl⟩
  | ok s b =>
      by_cases h200 : s = 200
      · subst h200; exact ⟨rfl, rfl, rfl⟩
      · by_cases h404 : s = 404
        · subst h404; exact ⟨rfl, rfl, rfl⟩
        · refine ⟨?_, ?_, ?_⟩ <;> simp [renew, isNotFoundResp, h200, h404]

/-- Claim C4: the register callback reports success exactly when the call
came back without transport error with status 204; any other status is
reported as an Error whose message interpolates the status code and the
response body, and a transport error is passed through to the caller. -/
theorem register_spec (resp : HttpResp) :
    (register resp = .okNull ↔ ∃ b, resp = .ok 204 b) ∧
    (∀ s b, resp = .ok s b → s ≠ 204 →
      register resp = .cbStatusError (registrationFailureMessage s b)) ∧
    (∀ e, resp = .err e → register resp = .cbTransportError e) := by
  refine ⟨?_, ?_, ?_⟩
  · cases resp with
    | err e => simp [register]
    | ok s b =>
        by_cases hs : s = 204
        · subst hs; simp [register]
        · simp [register, hs]
  · rintro s b rfl hs
    simp [register, hs]
  · rintro e rfl
    rfl

/-- Witness for C4: a 500 response with body oops is reported as the
status-and-body error message. -/
theorem register_spec_witness :
    register (.ok 500 "oops") = .cbStatusError (registrationFailureMessage 500 "oops") ∧
    registrationFailureMessage 500 "oops" =
      "eureka registration FAILED: status: 500 body: oops" :=
  ⟨(register_spec (.ok 500 "oops")).2.1 500 "oops" rfl (by decide), by decide⟩

/-- The model of toUpperCase agrees with the library String.toUpper. -/
theorem toUpperCase_eq_toUpper (s : String) : toUpperCase s = s.toUpper :=
  (String.map_eq Char.toUpper s).symm

theorem toUpperCase_eq_empty_iff (s : String) : toUpperCase s = "" ↔ s = "" := by
  cases s with
  | mk data =>
      constructor
      · intro h
        have h₂ : data.map Char.toUpper = ([] : List Char) := congrArg String.data h
        have h₃ : data = [] := by simpa using h₂
        rw [h₃]
      · intro h
        rw [h]
        rfl

/-- Claim C6: application-id lookup is case-insensitive: two identifiers
with the same upper-casing read the same cache entry (and agree on the
empty-identifier error as well), because both the index key and the lookup
argument are normalized to uppercase. -/
theorem getInstancesByAppId_case_insensitive (c : Cache) (s₁ s₂ : String)
    (h : toUpperCase s₁ = toUpperCase s₂) :
    getInstancesByAppId c s₁ = getInstancesByAppId c s₂ := by
  by_cases h₁ : s₁ = ""
  · have h₂ : s₂ = "" := by
      rw [← toUpperCase_eq_empty_iff, ← h, toUpperCase_eq_empty_iff]
      exact h₁
    rw [h₁, h₂]
  · have h₂ : s₂ ≠ "" := by
      intro hc
      exact h₁ (by rw [← toUpperCase_eq_empty_iff, h, toUpperCase_eq_empty_iff]; exact hc)
    simp [getInstancesByAppId, h₁, h₂, h]

/-- Witness for C6: after a fetch that indexed MYAPP, looking up myapp and
MYAPP yield identical results, and they are a present (non-undefined)
sequence. -/
theorem getInstancesByAppId_case_insensitive_witness :
    (toUpperCase "myapp" = toUpperCase "MYAPP") ∧
    getInstancesByAppId sampleCache "myapp" = getInstancesByAppId sampleCache "MYAPP" ∧
    getInstancesByAppId sampleCache "MYAPP" =
      .ok (some [CacheElem.record sampleInst₁, CacheElem.record sampleInst₂]) :=
  ⟨by decide,
    getInstancesByAppId_case_insensitive sampleCache "myapp" "MYAPP" (by decide),
    by decide⟩

/-- Claim C7: for both lookups, an empty identifier fails with the
RangeError and never returns a value, while a non-empty identifier bound to
nothing in the cache returns the non-error undefined result — the two
outcomes are distinguishable in every cache state. -/
theorem lookup_empty_vs_missing (c : Cache) (id : String) :
    (getInstancesByAppId c "" =
      .error "RangeError: Unable to query instances with no appId") ∧
    (getInstancesByVipAddress c "" =
      .error "RangeError: Unable to query instances with no vipAddress") ∧
    (id ≠ "" → getKey c.app (toUpperCase id) = none → getInstancesByAppId c id = .ok none) ∧
    (id ≠ "" → getKey c.vip id = none → getInstancesByVipAddress c id = .ok none) := by
  refine ⟨rfl, rfl, ?_, ?_⟩
  · intro h₁ h₂
    simp [getInstancesByAppId, h₁, h₂]
  · intro h₁ h₂
    simp [getInstancesByVipAddress, h₁, h₂]

/-- Witness for C7: on the sample cache, the unknown identifier nope gives
the undefined result from both lookups while the empty identifier gives the
RangeError. -/
theorem lookup_empty_vs_missing_witness :
    getInstancesByAppId sampleCache "nope" = .ok none ∧
    getInstancesByVipAddress sampleCache "nope" = .ok none ∧
    getInstancesByAppId sampleCache "" =
      .error "RangeError: Unable to query instances with no appId" :=
  ⟨(lookup_empty_vs_missing sampleCache "nope").2.2.1 (by decide) (by decide),
    (lookup_empty_vs_missing sampleCache "nope").2.2.2 (by decide) (by decide),
    (lookup_empty_vs_missing sampleCache "nope").1⟩

/-- An empty payload in the sense of claim C2: the parsed registry is a
falsy value such as null, or it carries no application entry.  An empty
application array is not included: it is truthy in JS and leads to a
normal cache replacement. -/
def emptyPayload : ParsedBody → Bool
  | .parsed .nullVal => true
  | .parsed (.withApps .absent) => true
  | _ => false

/-- A malformed payload in the sense of claim C2: the body does not parse
as JSON, or the parsed value has no applications object. -/
def malformedPayload : ParsedBody → Bool
  | .malformed => true
  | .parsed .noApplicationsObj => true
  | _ => false

/-- A failing fetch in the sense of claim C2: transport error, non-200
status, or an empty or malformed payload. -/
def fetchFails : RegistryResp → Bool
  | .err _ => true
  | .ok status body => status != 200 || emptyPayload body || malformedPayload body

/-- Whether the caller of fetchRegistry is handed a failure through the
callback: callback(error) or callback(new Error(..)). -/
def reportedToCaller : FetchOutcome → Bool
  | .cbTransportError _ => true
  | .cbStatusError => true
  | _ => false

/-- Counterexample to claim C2 as stated: a 200 response whose body parses
to null is an empty payload, the previous cache is indeed retained, but
the callback receives null — success, not a failure report; the warning
goes only to the log. -/
theorem fetchRegistry_empty_payload_reports_success :
    fetchFails (.ok 200 (.parsed .nullVal)) = true ∧
    (fetchRegistry (.ok 200 (.parsed .nullVal)) sampleCache).1 = sampleCache ∧
    reportedToCaller (fetchRegistry (.ok 200 (.parsed .nullVal)) sampleCache).2 = false ∧
    (fetchRegistry (.ok 200 (.parsed .nullVal)) sampleCache).2 = .cbNull := by
  decide

/-- Claim C2 amended: every failing fetch retains the previous cache
unchanged; a transport error and a non-200 status are reported to the
caller through the callback, but an empty payload yields callback(null)
— success, with only a logged warning — and a malformed payload throws
an exception out of the callback instead of reporting through it. -/
theorem fetchRegistry_failure_amended (resp : RegistryResp) (c : Cache)
    (h : fetchFails resp = true) :
    (fetchRegistry resp c).1 = c ∧
    (∀ e, resp = .err e → (fetchRegistry resp c).2 = .cbTransportError e) ∧
    (∀ s b, resp = .ok s b → s ≠ 200 → (fetchRegistry resp c).2 = .cbStatusError) ∧
    (∀ b, resp = .ok 200 b → emptyPayload b = true →
      (fetchRegistry resp c).2 = .cbNull) ∧
    (∀ b, resp = .ok 200 b → malformedPayload b = true →
      ∃ m, (fetchRegistry resp c).2 = .thrown m) := by
  refine ⟨?_, ?_, ?_, ?_, ?_⟩
  · cases resp with
    | err e => rfl
    | ok s b =>
        by_cases hs : s = 200
        · subst hs
          cases b with
          | malformed => rfl
          | parsed v =>
              cases v with
              | nullVal => rfl
              | noApplicationsObj => rfl
              | withApps af =>
                  cases af with
                  | absent => rfl
                  | single a => simp [fetchFails, emptyPayload, malformedPayload] at h
                  | list l => simp [fetchFails, emptyPayload, malformedPayload] at h
        · simp [fetchRegistry, hs]
  · rintro e rfl
    rfl
  · rintro s b rfl hs
    simp [fetchRegistry, hs]
  · rintro b rfl hb
    cases b with
    | malformed => simp [emptyPayload] at hb
    | parsed v =>
        cases v with
        | nullVal => rfl
        | noApplicationsObj => simp [emptyPayload] at hb
        | withApps af =>
            cases af with
            | absent => rfl
            | single a => simp [emptyPayload] at hb
            | list l => simp [emptyPayload] at hb
  · rintro b rfl hb
    cases b with
    | malformed => exact ⟨_, rfl⟩
    | parsed v =>
        cases v with
        | nullVal => simp [malformedPayload] at hb
        | noApplicationsObj => exact ⟨_, rfl⟩
        | withApps af => simp [malformedPayload] at hb

/-- Witness for the amended C2: a 503 response retains the sample cache
and the caller is handed the status error. -/
theorem fetchRegistry_failure_amended_witness :
    fetchFails (.ok 503 (.parsed .nullVal)) = true ∧
    (fetchRegistry (.ok 503 (.parsed .nullVal)) sampleCache).1 = sampleCache ∧
    (fetchRegistry (.ok 503 (.parsed .nullVal)) sampleCache).2 = .cbStatusError :=
  ⟨by decide,
    (fetchRegistry_failure_amended (.ok 503 (.parsed .nullVal)) sampleCache (by decide)).1,
    (fetchRegistry_failure_amended (.ok 503 (.parsed .nullVal)) sampleCache
      (by decide)).2.2.1 503 (.parsed .nullVal) rfl (by decide)⟩

/-- Claim C5: with the cloud datacenter and DNS mode configured, a failure
of the first TXT lookup, or of the second TXT lookup after a successful
first one, makes the whole resolution attempt fail: the host lookup
returns no value at all — in particular never the statically configured
host — and no base URL is built from it. -/
theorem dns_failure_is_fatal (host region : String) (dnsEnv : DnsEnv) (pick : Nat)
    (ssl : Bool) (port : Nat) (servicePath : String)
    (h : (∃ e, dnsEnv ("txt." ++ region ++ "." ++ host) = .error e) ∨
      (∃ firstRecord more, dnsEnv ("txt." ++ region ++ "." ++ host) =
          .ok (firstRecord :: more) ∧
        ∃ e₂, dnsEnv ("txt." ++ firstRecord.getD pick "undefined") = .error e₂)) :
    ∃ m, lookupCurrentEurekaHost true true host (some region) dnsEnv pick = .error m ∧
      (∀ hv, lookupCurrentEurekaHost true true host (some region) dnsEnv pick ≠ .ok hv) ∧
      buildEurekaUrl ssl port servicePath
        (lookupCurrentEurekaHost true true host (some region) dnsEnv pick) = .error m := by
  rcases h with ⟨e, he⟩ | ⟨firstRecord, more, hok, e₂, he₂⟩
  · refine ⟨"Error resolving eureka server list for region [" ++ region ++
      "] using DNS: [" ++ e ++ "]", ?_, ?_, ?_⟩ <;>
      simp [lookupCurrentEurekaHost, locateEurekaHostUsingDns, he, buildEurekaUrl]
  · have he₃ : dnsEnv ("txt." ++ (firstRecord[pick]?).getD "undefined") = .error e₂ := by
      simpa [List.getD] using he₂
    refine ⟨"Error locating eureka server using DNS: [" ++ e₂ ++ "]", ?_, ?_, ?_⟩ <;>
      simp [lookupCurrentEurekaHost, locateEurekaHostUsingDns, hok, he₃, buildEurekaUrl]

/-- A DNS environment in which every TXT query fails. -/
def failingDnsEnv : DnsEnv := fun _ => .error "ENOTFOUND"

/-- Witness for C5: with a failing first TXT lookup the resolution yields
an error and no URL. -/
theorem dns_failure_is_fatal_witness :
    failingDnsEnv "txt.us-east-1.eureka.example" = .error "ENOTFOUND" ∧
    ∃ m, lookupCurrentEurekaHost true true "eureka.example" (some "us-east-1")
        failingDnsEnv 0 = .error m ∧
      (∀ hv, lookupCurrentEurekaHost true true "eureka.example" (some "us-east-1")
        failingDnsEnv 0 ≠ .ok hv) ∧
      buildEurekaUrl false 8761 "/eureka/apps/"
        (lookupCurrentEurekaHost true true "eureka.example" (some "us-east-1")
          failingDnsEnv 0) = .error m :=
  ⟨rfl, dns_failure_is_fatal "eureka.example" "us-east-1" failingDnsEnv 0 false 8761
    "/eureka/apps/" (.inl ⟨"ENOTFOUND", rfl⟩)⟩

end EurekaClient
